import Mathlib

/-!
Shallow embedding of src/LSL2Logs.py (class LSL2Logs): a recorder that
discovers LSL streams through a continuous resolver, keeps one inlet per
known stream, and drains buffered samples into timestamped CSV files.

Modelling conventions:
- Python dicts keyed by stream uid become association lists
  (List (String × _)) with insertion-order semantics matching dict.
- The external LSL library is out of scope: resolver results are an input
  list of stream descriptors, an inlet is its buffered queue of pull
  outcomes (a sample or a LostError), and sample arrival is the explicit
  operation deliver.
- Files are in-memory: a DataFile holds the header written at creation,
  the appended rows, and whether a handle is currently open on it.
- Wall-clock and LSL-clock readings (datetime.now().isoformat(),
  local_clock()) are input strings, one pair per call.
- OSError on open (missing/unwritable output folder) is modelled by the
  Boolean folderOk: when false, any open of a path inside the folder
  raises, i.e. returns Except.error.
- print statements are ignored; they carry no state.
-/

set_option autoImplicit false

namespace LSL2Logs

/-- Immutable descriptor of a discovered stream, as exposed by pylsl
StreamInfo: uid, name, type, hostname, source_id, nominal_srate.
The nominal sample rate is kept as its printed string; no claim computes
with it. -/
structure StreamInfo where
  uid : String
  name : String
  type : String
  hostname : String
  source_id : String
  nominal_srate : String
  deriving DecidableEq, Repr

/-- One outcome of pull_sample(timeout=0) on an inlet that still has
queued content: either a buffered sample (value vector printed as a
string, plus its source timestamp) or a LostError. An empty queue means
pull_sample returns no sample. -/
inductive PullEvent where
  | sample (value : String) (ts : String)
  | lost
  deriving DecidableEq, Repr

/-- Entry of self._streams: the dict literal built in _updateStreams,
holding the descriptor under key info and the inlet under key inlet.
The inlet is modelled by its queue of pending pull outcomes. -/
structure StreamEntry where
  info : StreamInfo
  inlet : List PullEvent
  deriving DecidableEq, Repr

/-- A CSV row as DictWriter receives it: field/value pairs, listed in the
order the source builds the dict (which matches the fieldnames order). -/
abbrev Row := List (String × String)

/-- An output CSV file: the header row written at creation, the data rows
appended since, and whether some handle on it is currently open. -/
structure DataFile where
  header : List String
  rows : List Row
  isOpen : Bool
  deriving DecidableEq, Repr

/-- Whole mutable state of an LSL2Logs object. csvfile and writerSet
record whether self._csvfile / self._writer are not None; dataFile is the
session data file (none before any session); metaFile the metadata file;
metaFilename models self._filename_csv_meta (empty string = unset, the
Python truthiness test). folder is self._folder, split is
self._split. -/
structure Logger where
  recording : Bool
  split : Bool
  folder : String
  streams : List (String × StreamEntry)
  csvfile : Bool
  writerSet : Bool
  dataFile : Option DataFile
  metaFile : Option DataFile
  metaFilename : String
  deriving DecidableEq, Repr

/-- Keys of an association list, in order: models dict key iteration. -/
def keysOf {α : Type} (xs : List (String × α)) : List String :=
  xs.map Prod.fst

/-- Membership test on the keys, models the Python `in` on a dict. -/
def containsKey {α : Type} (xs : List (String × α)) (k : String) : Bool :=
  (keysOf xs).contains k

/-- Python dict assignment d[k] = v on an association list: replace the
value in place when the key exists, else append the binding. -/
def dictInsert {α : Type} (xs : List (String × α)) (k : String) (v : α) :
    List (String × α) :=
  if containsKey xs k then
    xs.map (fun p => if p.1 = k then (k, v) else p)
  else
    xs ++ [(k, v)]

/-- The current_streams dict of _updateStreams: fold the resolver results
into a dict keyed by uid. -/
def currentStreams (res : List StreamInfo) : List (String × StreamInfo) :=
  res.foldl (fun acc i => dictInsert acc i.uid i) []

/-- Rows of an optional file; a file never created has no rows. -/
def fileRows (f : Option DataFile) : List Row :=
  match f with
  | none => []
  | some df => df.rows

/-- Whether an optional file has an open handle. -/
def fileIsOpen (f : Option DataFile) : Bool :=
  match f with
  | none => false
  | some df => df.isOpen

/-- Append rows to an optional file (writerow on an existing file). -/
def appendRows (f : Option DataFile) (rs : List Row) : Option DataFile :=
  match f with
  | none => none
  | some df => some { df with rows := df.rows ++ rs }

/-- Mark an optional file as opened (open(path, mode)). -/
def openFile (f : Option DataFile) : Option DataFile :=
  match f with
  | none => none
  | some df => some { df with isOpen := true }

/-- Mark an optional file as closed (handle close, or with-block exit). -/
def closeFile (f : Option DataFile) : Option DataFile :=
  match f with
  | none => none
  | some df => some { df with isOpen := false }

/-- The metadata row built in _writeCSVMeta, fields in source order. -/
def metaRow (info : StreamInfo) (now lc : String) : Row :=
  [("uid", info.uid),
   ("date_local", now),
   ("timestamp_local", lc),
   ("type", info.type),
   ("name", info.name),
   ("hostname", info.hostname),
   ("source_id", info.source_id),
   ("nominal_srate", info.nominal_srate)]

/-- The data row built in _writeCSV when split_metadata is off. -/
def dataRowFull (info : StreamInfo) (now lc ts v : String) : Row :=
  [("date_local", now),
   ("timestamp_local", lc),
   ("timestamp_sample", ts),
   ("type", info.type),
   ("name", info.name),
   ("hostname", info.hostname),
   ("source_id", info.source_id),
   ("nominal_srate", info.nominal_srate),
   ("data", v)]

/-- The data row built in _writeCSV when split_metadata is on. -/
def dataRowSplit (info : StreamInfo) (lc ts v : String) : Row :=
  [("uid", info.uid),
   ("timestamp_local", lc),
   ("timestamp_sample", ts),
   ("data", v)]

/-- self._fieldnames_csv as chosen in __init__ from split_metadata. -/
def fieldnames_csv (split : Bool) : List String :=
  if split then
    ["uid", "timestamp_local", "timestamp_sample", "data"]
  else
    ["date_local", "timestamp_local", "timestamp_sample", "type", "name",
     "hostname", "source_id", "nominal_srate", "data"]

/-- self._fieldnames_csv_meta from __init__. -/
def fieldnames_csv_meta : List String :=
  ["uid", "date_local", "timestamp_local", "type", "name", "hostname",
   "source_id", "nominal_srate"]

/-- State of a freshly constructed LSL2Logs (record_on_start False):
not recording, no streams, no files, no writer. -/
def initState (split : Bool) (folder : String) : Logger :=
  { recording := false
    split := split
    folder := folder
    streams := []
    csvfile := false
    writerSet := false
    dataFile := none
    metaFile := none
    metaFilename := "" }

/-- Method _writeCSVMeta: append one metadata row, guarded by
`self._recording and self._filename_csv_meta` (the string is truthy iff
nonempty). now and lc are the clock readings taken inside the call. -/
def writeCSVMeta (info : StreamInfo) (now lc : String) (st : Logger) :
    Logger :=
  if st.recording && st.metaFilename ≠ "" then
    { st with metaFile := appendRows st.metaFile [metaRow info now lc] }
  else
    st

/-- The add loop of _updateStreams over streams_new: for each uid of the
current dict not yet known, append an entry with a fresh inlet (its
buffer starts empty; later arrivals are modelled by deliver) and write a
metadata row when split is set. The source iterates the new uids as a
Python set; here they are taken in current_streams order, which no claim
depends on. -/
def addStep (now lc : String) (st : Logger) (p : String × StreamInfo) :
    Logger :=
  if containsKey st.streams p.1 then
    st
  else
    let added := { st with streams := st.streams ++ [(p.1, ⟨p.2, []⟩)] }
    if st.split then writeCSVMeta p.2 now lc added else added

/-- The add loop folds addStep over the current dict. -/
def addNewStreams (now lc : String) (cur : List (String × StreamInfo))
    (st : Logger) : Logger :=
  cur.foldl (addStep now lc) st

/-- Method _updateStreams: build current_streams from the resolver
results, prune known streams absent from it (popping the entry deletes
its inlet), then add entries for the new uids. -/
def updateStreams (res : List StreamInfo) (now lc : String) (st : Logger) :
    Logger :=
  let cur := currentStreams res
  addNewStreams now lc cur
    { st with streams := st.streams.filter (fun p => containsKey cur p.1) }

/-- One inlet's drain loop from _writeCSV: pull with timeout 0 until no
sample; a LostError ends the loop (the raising pull consumes nothing, so
the lost marker stays queued, as pylsl keeps raising LostError). Returns
the samples pulled, in order, and the queue left behind. -/
def drainInlet : List PullEvent → List (String × String) × List PullEvent
  | [] => ([], [])
  | PullEvent.lost :: rest => ([], PullEvent.lost :: rest)
  | PullEvent.sample v ts :: rest =>
    let out := drainInlet rest
    ((v, ts) :: out.1, out.2)

/-- The rows _writeCSV writes for one stream from the samples drained off
its inlet, split or full layout. -/
def streamRows (split : Bool) (info : StreamInfo) (now lc : String)
    (samples : List (String × String)) : List Row :=
  samples.map (fun s =>
    if split then dataRowSplit info lc s.2 s.1
    else dataRowFull info now lc s.2 s.1)

/-- The for-loop of _writeCSV over self._streams.values(): drain each
inlet in turn, collecting the rows written and the streams list with each
consumed inlet. -/
def drainAll (split : Bool) (now lc : String) :
    List (String × StreamEntry) → List Row × List (String × StreamEntry)
  | [] => ([], [])
  | (u, e) :: rest =>
    let d := drainInlet e.inlet
    let tail := drainAll split now lc rest
    (streamRows split e.info now lc d.1 ++ tail.1,
     (u, { e with inlet := d.2 }) :: tail.2)

/-- Method _writeCSV: guarded by `self._recording and self._writer is not
None`; drains every known stream and appends the rows through the
writer. -/
def writeCSV (now lc : String) (st : Logger) : Logger :=
  if st.recording && st.writerSet then
    let d := drainAll st.split now lc st.streams
    { st with dataFile := appendRows st.dataFile d.1, streams := d.2 }
  else
    st

/-- Method _initFile: returns "" at once when already recording;
otherwise creates the timestamped data file (the open with mode w raises
OSError when the folder is missing or unwritable: Except.error, with no
state changed, exactly as the Python raise happens before any attribute
assignment), then in split mode sets self._filename_csv_meta, creates
the metadata file, and calls _writeCSVMeta for every known stream. -/
def initFile (folderOk : Bool) (now lc : String) (st : Logger) :
    Except Unit (String × Logger) :=
  if st.recording then
    Except.ok ("", st)
  else
    let fn := st.folder ++ "/data_" ++ now ++ ".csv"
    if folderOk then
      let st1 := { st with dataFile := some ⟨fieldnames_csv st.split, [], false⟩ }
      if st1.split then
        let st2 := { st1 with
          metaFilename := st1.folder ++ "/metadata_" ++ now ++ ".csv"
          metaFile := some ⟨fieldnames_csv_meta, [], false⟩ }
        Except.ok (fn, st2.streams.foldl (fun acc p => writeCSVMeta p.2.info now lc acc) st2)
      else
        Except.ok (fn, st1)
    else
      Except.error ()

/-- Method stopRecording: clear the flag, and when the manual-mode handle
self._csvfile is set, close it and reset it and the writer to None. -/
def stopRecording (st : Logger) : Logger :=
  let st1 := { st with recording := false }
  if st1.csvfile then
    { st1 with
      dataFile := closeFile st1.dataFile
      csvfile := false
      writerSet := false }
  else
    st1

/-- Method startRecording: refuse when already recording; else update
streams, then inside try open the session file in append mode and build
the writer; an OSError from _initFile or the open is caught and only
reported, leaving the state as _updateStreams left it. -/
def startRecording (folderOk : Bool) (res : List StreamInfo) (now lc : String)
    (st : Logger) : Logger :=
  if st.recording then
    st
  else
    let st1 := updateStreams res now lc st
    match initFile folderOk now lc st1 with
    | Except.error _ => st1
    | Except.ok (_, st2) =>
      { st2 with
        dataFile := openFile st2.dataFile
        csvfile := true
        writerSet := true
        recording := true }

/-- External inputs consumed by one loop iteration: the resolver results
and the two clock readings. -/
structure LoopEnv where
  res : List StreamInfo
  now : String
  lc : String
  deriving Repr

/-- Method loop: update the stream list; when recording, also drain and
write. -/
def loop (e : LoopEnv) (st : Logger) : Logger :=
  let st1 := updateStreams e.res e.now e.lc st
  if st1.recording then writeCSV e.now e.lc st1 else st1

/-- Body of the while-loop in record(): _updateStreams then _writeCSV
(the sleep carries no state). -/
def loopBody (e : LoopEnv) (st : Logger) : Logger :=
  writeCSV e.now e.lc (updateStreams e.res e.now e.lc st)

/-- Method record(): refuse when already recording; else update streams,
open the file returned by _initFile - with no try, so an OSError from the
missing folder escapes to the caller as Except.error - then set the
writer and the flag and run the loop body once per iteration input; the
external thread's stopRecording call ends the loop, the with-block closes
the local file, and record calls stopRecording once more. -/
def record (folderOk : Bool) (res : List StreamInfo) (now lc : String)
    (iters : List LoopEnv) (st : Logger) : Except Unit Logger :=
  if st.recording then
    Except.ok st
  else
    let st1 := updateStreams res now lc st
    match initFile folderOk now lc st1 with
    | Except.error e => Except.error e
    | Except.ok (_, st2) =>
      let st3 := { st2 with
        dataFile := openFile st2.dataFile
        writerSet := true
        recording := true }
      let st4 := iters.foldl (fun acc e => loopBody e acc) st3
      let st5 := stopRecording st4
      Except.ok (stopRecording { st5 with dataFile := closeFile st5.dataFile })

/-- External collaborator behaviour, not a method of the class: the LSL
transport appending freshly received outcomes to the buffers of the named
inlets between iterations. -/
def deliver (arr : List (String × List PullEvent)) (st : Logger) : Logger :=
  { st with
    streams := st.streams.map (fun p =>
      match arr.lookup p.1 with
      | some evs => (p.1, { p.2 with inlet := p.2.inlet ++ evs })
      | none => p) }

/-! Key-set facts about the dict operations and the reconciler. -/

@[simp]
lemma keysOf_nil {α : Type} : keysOf ([] : List (String × α)) = [] := rfl

@[simp]
lemma keysOf_cons {α : Type} (p : String × α) (xs : List (String × α)) :
    keysOf (p :: xs) = p.1 :: keysOf xs := rfl

@[simp]
lemma keysOf_append {α : Type} (xs ys : List (String × α)) :
    keysOf (xs ++ ys) = keysOf xs ++ keysOf ys :=
  List.map_append _ _ _

lemma containsKey_iff {α : Type} (xs : List (String × α)) (k : String) :
    containsKey xs k = true ↔ k ∈ keysOf xs := by
  simp [containsKey]

lemma keysOf_map_replace {α : Type} (k : String) (v : α) :
    ∀ xs : List (String × α),
      keysOf (xs.map (fun p => if p.1 = k then (k, v) else p)) = keysOf xs := by
  intro xs
  induction xs with
  | nil => rfl
  | cons p xs ih =>
    simp only [List.map_cons, keysOf_cons, ih]
    by_cases h : p.1 = k
    · simp [h]
    · simp [h]

lemma mem_keysOf_dictInsert {α : Type} (xs : List (String × α)) (k : String)
    (v : α) (u : String) :
    u ∈ keysOf (dictInsert xs k v) ↔ u ∈ keysOf xs ∨ u = k := by
  unfold dictInsert
  by_cases h : containsKey xs k = true
  · rw [if_pos h, keysOf_map_replace]
    constructor
    · exact Or.inl
    · rintro (hu | rfl)
      · exact hu
      · exact (containsKey_iff xs u).1 h
  · rw [if_neg h]
    simp

lemma nodup_keysOf_dictInsert {α : Type} (xs : List (String × α)) (k : String)
    (v : α) (h : (keysOf xs).Nodup) : (keysOf (dictInsert xs k v)).Nodup := by
  unfold dictInsert
  by_cases hc : containsKey xs k = true
  · rw [if_pos hc, keysOf_map_replace]
    exact h
  · rw [if_neg hc]
    have hk : k ∉ keysOf xs := fun hm => hc ((containsKey_iff xs k).2 hm)
    simp [List.nodup_append, h, hk]

lemma mem_keysOf_currentStreams_aux (u : String) :
    ∀ (res : List StreamInfo) (acc : List (String × StreamInfo)),
      u ∈ keysOf (res.foldl (fun a i => dictInsert a i.uid i) acc) ↔
        u ∈ keysOf acc ∨ u ∈ res.map StreamInfo.uid := by
  intro res
  induction res with
  | nil => intro acc; simp
  | cons i res ih =>
    intro acc
    rw [List.foldl_cons, ih, mem_keysOf_dictInsert]
    simp only [List.map_cons, List.mem_cons]
    tauto

lemma mem_keysOf_currentStreams (res : List StreamInfo) (u : String) :
    u ∈ keysOf (currentStreams res) ↔ u ∈ res.map StreamInfo.uid := by
  rw [currentStreams, mem_keysOf_currentStreams_aux]
  simp

lemma nodup_keysOf_currentStreams_aux :
    ∀ (res : List StreamInfo) (acc : List (String × StreamInfo)),
      (keysOf acc).Nodup →
      (keysOf (res.foldl (fun a i => dictInsert a i.uid i) acc)).Nodup := by
  intro res
  induction res with
  | nil => intro acc h; exact h
  | cons i res ih =>
    intro acc h
    rw [List.foldl_cons]
    exact ih _ (nodup_keysOf_dictInsert _ _ _ h)

lemma nodup_keysOf_currentStreams (res : List StreamInfo) :
    (keysOf (currentStreams res)).Nodup :=
  nodup_keysOf_currentStreams_aux res [] List.nodup_nil

@[simp]
lemma writeCSVMeta_streams (i : StreamInfo) (now lc : String) (st : Logger) :
    (writeCSVMeta i now lc st).streams = st.streams := by
  unfold writeCSVMeta
  split <;> rfl

@[simp]
lemma writeCSVMeta_recording (i : StreamInfo) (now lc : String) (st : Logger) :
    (writeCSVMeta i now lc st).recording = st.recording := by
  unfold writeCSVMeta
  split <;> rfl

@[simp]
lemma writeCSVMeta_split (i : StreamInfo) (now lc : String) (st : Logger) :
    (writeCSVMeta i now lc st).split = st.split := by
  unfold writeCSVMeta
  split <;> rfl

@[simp]
lemma writeCSVMeta_dataFile (i : StreamInfo) (now lc : String) (st : Logger) :
    (writeCSVMeta i now lc st).dataFile = st.dataFile := by
  unfold writeCSVMeta
  split <;> rfl

@[simp]
lemma writeCSVMeta_csvfile (i : StreamInfo) (now lc : String) (st : Logger) :
    (writeCSVMeta i now lc st).csvfile = st.csvfile := by
  unfold writeCSVMeta
  split <;> rfl

@[simp]
lemma writeCSVMeta_writerSet (i : StreamInfo) (now lc : String) (st : Logger) :
    (writeCSVMeta i now lc st).writerSet = st.writerSet := by
  unfold writeCSVMeta
  split <;> rfl

@[simp]
lemma writeCSVMeta_metaFilename (i : StreamInfo) (now lc : String) (st : Logger) :
    (writeCSVMeta i now lc st).metaFilename = st.metaFilename := by
  unfold writeCSVMeta
  split <;> rfl

@[simp]
lemma writeCSVMeta_folder (i : StreamInfo) (now lc : String) (st : Logger) :
    (writeCSVMeta i now lc st).folder = st.folder := by
  unfold writeCSVMeta
  split <;> rfl

lemma writeCSVMeta_of_not_recording (i : StreamInfo) (now lc : String)
    (st : Logger) (h : st.recording = false) : writeCSVMeta i now lc st = st := by
  simp [writeCSVMeta, h]

lemma addStep_streams (now lc : String) (st : Logger) (p : String × StreamInfo) :
    (addStep now lc st p).streams =
      if containsKey st.streams p.1 then st.streams
      else st.streams ++ [(p.1, ⟨p.2, []⟩)] := by
  unfold addStep
  split
  · rfl
  · split <;> simp

lemma addNewStreams_cons (now lc : String) (p : String × StreamInfo)
    (cur : List (String × StreamInfo)) (st : Logger) :
    addNewStreams now lc (p :: cur) st =
      addNewStreams now lc cur (addStep now lc st p) := rfl

@[simp]
lemma addNewStreams_recording (now lc : String) :
    ∀ (cur : List (String × StreamInfo)) (st : Logger),
      (addNewStreams now lc cur st).recording = st.recording := by
  intro cur
  induction cur with
  | nil => intro st; rfl
  | cons p cur ih =>
    intro st
    rw [addNewStreams_cons, ih]
    unfold addStep
    split
    · rfl
    · split <;> simp

@[simp]
lemma addNewStreams_split (now lc : String) :
    ∀ (cur : List (String × StreamInfo)) (st : Logger),
      (addNewStreams now lc cur st).split = st.split := by
  intro cur
  induction cur with
  | nil => intro st; rfl
  | cons p cur ih =>
    intro st
    rw [addNewStreams_cons, ih]
    unfold addStep
    split
    · rfl
    · split <;> simp

@[simp]
lemma addNewStreams_dataFile (now lc : String) :
    ∀ (cur : List (String × StreamInfo)) (st : Logger),
      (addNewStreams now lc cur st).dataFile = st.dataFile := by
  intro cur
  induction cur with
  | nil => intro st; rfl
  | cons p cur ih =>
    intro st
    rw [addNewStreams_cons, ih]
    unfold addStep
    split
    · rfl
    · split <;> simp

@[simp]
lemma addNewStreams_csvfile (now lc : String) :
    ∀ (cur : List (String × StreamInfo)) (st : Logger),
      (addNewStreams now lc cur st).csvfile = st.csvfile := by
  intro cur
  induction cur with
  | nil => intro st; rfl
  | cons p cur ih =>
    intro st
    rw [addNewStreams_cons, ih]
    unfold addStep
    split
    · rfl
    · split <;> simp

@[simp]
lemma addNewStreams_writerSet (now lc : String) :
    ∀ (cur : List (String × StreamInfo)) (st : Logger),
      (addNewStreams now lc cur st).writerSet = st.writerSet := by
  intro cur
  induction cur with
  | nil => intro st; rfl
  | cons p cur ih =>
    intro st
    rw [addNewStreams_cons, ih]
    unfold addStep
    split
    · rfl
    · split <;> simp

@[simp]
lemma addNewStreams_metaFilename (now lc : String) :
    ∀ (cur : List (String × StreamInfo)) (st : Logger),
      (addNewStreams now lc cur st).metaFilename = st.metaFilename := by
  intro cur
  induction cur with
  | nil => intro st; rfl
  | cons p cur ih =>
    intro st
    rw [addNewStreams_cons, ih]
    unfold addStep
    split
    · rfl
    · split <;> simp

@[simp]
lemma addNewStreams_folder (now lc : String) :
    ∀ (cur : List (String × StreamInfo)) (st : Logger),
      (addNewStreams now lc cur st).folder = st.folder := by
  intro cur
  induction cur with
  | nil => intro st; rfl
  | cons p cur ih =>
    intro st
    rw [addNewStreams_cons, ih]
    unfold addStep
    split
    · rfl
    · split <;> simp

lemma addNewStreams_metaFile_of_not_recording (now lc : String) :
    ∀ (cur : List (String × StreamInfo)) (st : Logger),
      st.recording = false →
      (addNewStreams now lc cur st).metaFile = st.metaFile := by
  intro cur
  induction cur with
  | nil => intro st _; rfl
  | cons p cur ih =>
    intro st h
    rw [addNewStreams_cons]
    have hstep : (addStep now lc st p).metaFile = st.metaFile := by
      unfold addStep
      by_cases hc : containsKey st.streams p.1 = true
      · rw [if_pos hc]
      · rw [if_neg hc]
        dsimp only
        by_cases hs : st.split = true
        · rw [if_pos hs, writeCSVMeta_of_not_recording]
          exact h
        · rw [if_neg hs]
    have hrec : (addStep now lc st p).recording = false := by
      unfold addStep
      split
      · exact h
      · split <;> simp [h]
    rw [ih _ hrec, hstep]

lemma mem_keysOf_addNewStreams (now lc u : String) :
    ∀ (cur : List (String × StreamInfo)) (st : Logger),
      u ∈ keysOf ((addNewStreams now lc cur st).streams) ↔
        u ∈ keysOf st.streams ∨ u ∈ keysOf cur := by
  intro cur
  induction cur with
  | nil => intro st; simp [addNewStreams]
  | cons p cur ih =>
    intro st
    rw [addNewStreams_cons, ih, addStep_streams]
    by_cases h : containsKey st.streams p.1 = true
    · rw [if_pos h]
      have hp : p.1 ∈ keysOf st.streams := (containsKey_iff _ _).1 h
      simp only [keysOf_cons, List.mem_cons]
      constructor
      · rintro (hu | hu)
        · exact Or.inl hu
        · exact Or.inr (Or.inr hu)
      · rintro (hu | rfl | hu)
        · exact Or.inl hu
        · exact Or.inl hp
        · exact Or.inr hu
    · rw [if_neg h]
      simp only [keysOf_append, keysOf_cons, keysOf_nil, List.mem_append,
        List.mem_cons, List.mem_singleton]
      tauto

lemma nodup_keysOf_addNewStreams (now lc : String) :
    ∀ (cur : List (String × StreamInfo)) (st : Logger),
      (keysOf st.streams).Nodup →
      (keysOf ((addNewStreams now lc cur st).streams)).Nodup := by
  intro cur
  induction cur with
  | nil => intro st h; exact h
  | cons p cur ih =>
    intro st h
    rw [addNewStreams_cons]
    apply ih
    rw [addStep_streams]
    by_cases hc : containsKey st.streams p.1 = true
    · rw [if_pos hc]; exact h
    · rw [if_neg hc]
      have hk : p.1 ∉ keysOf st.streams :=
        fun hm => hc ((containsKey_iff _ _).2 hm)
      simp [List.nodup_append, h, hk]

lemma mem_keysOf_filtered {α β : Type} (xs : List (String × α))
    (cur : List (String × β)) (u : String)
    (h : u ∈ keysOf (xs.filter (fun p => containsKey cur p.1))) :
    u ∈ keysOf cur := by
  rcases List.mem_map.1 h with ⟨p, hp, rfl⟩
  exact (containsKey_iff _ _).1 (List.mem_filter.1 hp).2

lemma mem_keysOf_updateStreams (res : List StreamInfo) (now lc : String)
    (st : Logger) (u : String) :
    u ∈ keysOf ((updateStreams res now lc st).streams) ↔
      u ∈ res.map StreamInfo.uid := by
  unfold updateStreams
  rw [mem_keysOf_addNewStreams]
  constructor
  · rintro (h | h)
    · exact (mem_keysOf_currentStreams res u).1 (mem_keysOf_filtered _ _ _ h)
    · exact (mem_keysOf_currentStreams res u).1 h
  · intro h
    exact Or.inr ((mem_keysOf_currentStreams res u).2 h)

lemma nodup_keysOf_updateStreams (res : List StreamInfo) (now lc : String)
    (st : Logger) (h : (keysOf st.streams).Nodup) :
    (keysOf ((updateStreams res now lc st).streams)).Nodup := by
  unfold updateStreams
  apply nodup_keysOf_addNewStreams
  exact h.sublist ((List.filter_sublist st.streams).map Prod.fst)

@[simp]
lemma updateStreams_recording (res : List StreamInfo) (now lc : String)
    (st : Logger) :
    (updateStreams res now lc st).recording = st.recording := by
  unfold updateStreams
  rw [addNewStreams_recording]

@[simp]
lemma updateStreams_split (res : List StreamInfo) (now lc : String)
    (st : Logger) : (updateStreams res now lc st).split = st.split := by
  unfold updateStreams
  rw [addNewStreams_split]

@[simp]
lemma updateStreams_dataFile (res : List StreamInfo) (now lc : String)
    (st : Logger) :
    (updateStreams res now lc st).dataFile = st.dataFile := by
  unfold updateStreams
  rw [addNewStreams_dataFile]

@[simp]
lemma updateStreams_csvfile (res : List StreamInfo) (now lc : String)
    (st : Logger) :
    (updateStreams res now lc st).csvfile = st.csvfile := by
  unfold updateStreams
  rw [addNewStreams_csvfile]

@[simp]
lemma updateStreams_writerSet (res : List StreamInfo) (now lc : String)
    (st : Logger) :
    (updateStreams res now lc st).writerSet = st.writerSet := by
  unfold updateStreams
  rw [addNewStreams_writerSet]

@[simp]
lemma updateStreams_metaFilename (res : List StreamInfo) (now lc : String)
    (st : Logger) :
    (updateStreams res now lc st).metaFilename = st.metaFilename := by
  unfold updateStreams
  rw [addNewStreams_metaFilename]

@[simp]
lemma updateStreams_folder (res : List StreamInfo) (now lc : String)
    (st : Logger) : (updateStreams res now lc st).folder = st.folder := by
  unfold updateStreams
  rw [addNewStreams_folder]

lemma updateStreams_metaFile_of_not_recording (res : List StreamInfo)
    (now lc : String) (st : Logger) (h : st.recording = false) :
    (updateStreams res now lc st).metaFile = st.metaFile := by
  unfold updateStreams
  rw [addNewStreams_metaFile_of_not_recording]
  exact h

/-! Drain and writer facts. -/

lemma drainInlet_samples :
    ∀ vs : List (String × String),
      drainInlet (vs.map (fun s => PullEvent.sample s.1 s.2)) = (vs, []) := by
  intro vs
  induction vs with
  | nil => rfl
  | cons s vs ih => simp [drainInlet, ih]

lemma drainInlet_until_lost (junk : List PullEvent) :
    ∀ vs : List (String × String),
      drainInlet (vs.map (fun s => PullEvent.sample s.1 s.2) ++
          PullEvent.lost :: junk) =
        (vs, PullEvent.lost :: junk) := by
  intro vs
  induction vs with
  | nil => rfl
  | cons s vs ih => simp [drainInlet, ih]

lemma drainAll_eq (split : Bool) (now lc : String) :
    ∀ ss : List (String × StreamEntry),
      drainAll split now lc ss =
        ((ss.map (fun p =>
            streamRows split p.2.info now lc (drainInlet p.2.inlet).1)).flatten,
         ss.map (fun p =>
            (p.1, { p.2 with inlet := (drainInlet p.2.inlet).2 }))) := by
  intro ss
  induction ss with
  | nil => rfl
  | cons p ss ih =>
    obtain ⟨u, e⟩ := p
    simp [drainAll, ih]

lemma streamRows_length (split : Bool) (info : StreamInfo) (now lc : String)
    (samples : List (String × String)) :
    (streamRows split info now lc samples).length = samples.length :=
  List.length_map _ _

lemma writeCSV_of_not_recording (now lc : String) (st : Logger)
    (h : st.recording = false) : writeCSV now lc st = st := by
  simp [writeCSV, h]

lemma writeCSV_eq (now lc : String) (st : Logger)
    (h1 : st.recording = true) (h2 : st.writerSet = true) :
    writeCSV now lc st =
      { st with
        dataFile := appendRows st.dataFile
          ((st.streams.map (fun p =>
            streamRows st.split p.2.info now lc (drainInlet p.2.inlet).1)).flatten)
        streams := st.streams.map (fun p =>
          (p.1, { p.2 with inlet := (drainInlet p.2.inlet).2 })) } := by
  unfold writeCSV
  rw [if_pos (by simp [h1, h2]), drainAll_eq]

@[simp]
lemma appendRows_some (df : DataFile) (rs : List Row) :
    appendRows (some df) rs = some { df with rows := df.rows ++ rs } := rfl

lemma keysOf_map_second (ss : List (String × StreamEntry))
    (f : String × StreamEntry → StreamEntry) :
    keysOf (ss.map (fun p => (p.1, f p))) = keysOf ss := by
  induction ss with
  | nil => rfl
  | cons p ss ih => simp [keysOf, ih]

@[simp]
lemma fileRows_closeFile (f : Option DataFile) :
    fileRows (closeFile f) = fileRows f := by
  cases f <;> rfl

@[simp]
lemma fileIsOpen_closeFile (f : Option DataFile) :
    fileIsOpen (closeFile f) = false := by
  cases f <;> rfl

lemma closeFile_closeFile (f : Option DataFile) :
    closeFile (closeFile f) = closeFile f := by
  cases f <;> rfl

/-! Stop and idle-loop facts. -/

@[simp]
lemma stopRecording_recording (st : Logger) :
    (stopRecording st).recording = false := by
  unfold stopRecording
  dsimp only
  by_cases h : st.csvfile <;> simp [h]

@[simp]
lemma stopRecording_csvfile (st : Logger) :
    (stopRecording st).csvfile = false := by
  unfold stopRecording
  by_cases h : st.csvfile <;> simp [h]

@[simp]
lemma stopRecording_metaFile (st : Logger) :
    (stopRecording st).metaFile = st.metaFile := by
  unfold stopRecording
  dsimp only
  by_cases h : st.csvfile <;> simp [h]

@[simp]
lemma stopRecording_rows (st : Logger) :
    fileRows (stopRecording st).dataFile = fileRows st.dataFile := by
  unfold stopRecording
  dsimp only
  by_cases h : st.csvfile <;> simp [h]

lemma stopRecording_isOpen (st : Logger) :
    fileIsOpen (stopRecording st).dataFile =
      (if st.csvfile then false else fileIsOpen st.dataFile) := by
  unfold stopRecording
  by_cases h : st.csvfile <;> simp [h]

/-- Driving the manual API: one loop() call per environment, in order. -/
def runLoops (envs : List LoopEnv) (st : Logger) : Logger :=
  envs.foldl (fun s e => loop e s) st

lemma loop_of_not_recording (e : LoopEnv) (st : Logger)
    (h : st.recording = false) :
    loop e st = updateStreams e.res e.now e.lc st := by
  unfold loop
  rw [if_neg]
  simp [h]

lemma runLoops_idle (envs : List LoopEnv) :
    ∀ st : Logger, st.recording = false →
      (runLoops envs st).recording = false ∧
      (runLoops envs st).dataFile = st.dataFile ∧
      (runLoops envs st).metaFile = st.metaFile := by
  induction envs with
  | nil => intro st h; exact ⟨h, rfl, rfl⟩
  | cons e envs ih =>
    intro st h
    have hl : loop e st = updateStreams e.res e.now e.lc st :=
      loop_of_not_recording e st h
    have h1 : (loop e st).recording = false := by rw [hl]; simp [h]
    obtain ⟨a, b, c⟩ := ih (loop e st) h1
    refine ⟨a, ?_, ?_⟩
    · rw [show runLoops (e :: envs) st = runLoops envs (loop e st) from rfl,
        b, hl, updateStreams_dataFile]
    · rw [show runLoops (e :: envs) st = runLoops envs (loop e st) from rfl,
        c, hl, updateStreams_metaFile_of_not_recording _ _ _ _ h]

lemma foldl_writeCSVMeta_of_not_recording (now lc : String) :
    ∀ (ss : List (String × StreamEntry)) (st : Logger),
      st.recording = false →
      ss.foldl (fun acc p => writeCSVMeta p.2.info now lc acc) st = st := by
  intro ss
  induction ss with
  | nil => intro st _; rfl
  | cons p ss ih =>
    intro st h
    rw [List.foldl_cons, writeCSVMeta_of_not_recording _ _ _ _ h, ih st h]

/-! Concrete states used to instantiate the theorems. -/

/-- A sample stream descriptor. -/
def demoInfo : StreamInfo := ⟨"u1", "n1", "EEG", "h1", "s1", "100.0"⟩

/-- A manual-mode state in the middle of an unsplit recording session,
with one known stream holding one buffered sample. -/
def demoRecState : Logger :=
  { recording := true
    split := false
    folder := "logs"
    streams := [("u1", ⟨demoInfo, [PullEvent.sample "1.0" "10.0"]⟩)]
    csvfile := true
    writerSet := true
    dataFile := some ⟨fieldnames_csv false, [], true⟩
    metaFile := none
    metaFilename := "" }

/-- C1: one _updateStreams pass leaves the known-streams dict keyed by
exactly the uids of the resolver results: the keys stay pairwise distinct
(one entry, hence one inlet, per visible uid) and a uid is a key iff it
occurs in the results, for any prior dict with distinct keys - so the
property is preserved along any sequence of reconciliations. Entries
whose uid vanished are gone from the dict, which is where their inlet
lived. -/
theorem updateStreams_reconciles_keys (res : List StreamInfo) (now lc : String)
    (st : Logger) (u : String) (h : (keysOf st.streams).Nodup) :
    (keysOf ((updateStreams res now lc st).streams)).Nodup ∧
      (u ∈ keysOf ((updateStreams res now lc st).streams) ↔
        u ∈ res.map StreamInfo.uid) :=
  ⟨nodup_keysOf_updateStreams res now lc st h,
   mem_keysOf_updateStreams res now lc st u⟩

/-- Witness for C1 at one discovered stream over the fresh state. -/
theorem updateStreams_reconciles_keys_witness :
    (keysOf ((updateStreams [demoInfo] "t" "c" (initState false "logs")).streams)).Nodup ∧
      ("u1" ∈ keysOf ((updateStreams [demoInfo] "t" "c" (initState false "logs")).streams) ↔
        "u1" ∈ [demoInfo].map StreamInfo.uid) :=
  updateStreams_reconciles_keys [demoInfo] "t" "c" (initState false "logs") "u1"
    (by decide)

/-- C2: while recording with a live writer, one _writeCSV pass appends to
the data file, stream by stream, one row per sample drained off that
stream's inlet, in order - none skipped, none doubled - and leaves each
inlet holding what the drain left; an inlet buffering exactly the samples
vs is drained to vs in full with an empty queue behind, so exactly
vs.length rows are written for it. -/
theorem writeCSV_drains_exactly (now lc : String) (st : Logger)
    (df : DataFile) (vs : List (String × String)) (info : StreamInfo)
    (h1 : st.recording = true) (h2 : st.writerSet = true)
    (h3 : st.dataFile = some df) :
    (writeCSV now lc st).dataFile =
      some { df with rows := df.rows ++
        (st.streams.map (fun p =>
          streamRows st.split p.2.info now lc (drainInlet p.2.inlet).1)).flatten } ∧
    (writeCSV now lc st).streams =
      st.streams.map (fun p =>
        (p.1, { p.2 with inlet := (drainInlet p.2.inlet).2 })) ∧
    drainInlet (vs.map (fun s => PullEvent.sample s.1 s.2)) = (vs, []) ∧
    (streamRows st.split info now lc vs).length = vs.length := by
  have he := writeCSV_eq now lc st h1 h2
  refine ⟨?_, ?_, drainInlet_samples vs,
    streamRows_length st.split info now lc vs⟩
  · rw [he]
    simp only [h3, appendRows_some]
  · rw [he]

/-- Witness for C2: the demo session drains its one buffered sample into
exactly one data row and the inlet is empty afterwards. -/
theorem writeCSV_drains_exactly_witness :
    (writeCSV "t" "c" demoRecState).dataFile =
      some ⟨fieldnames_csv false, [dataRowFull demoInfo "t" "c" "10.0" "1.0"], true⟩ := by
  have h := writeCSV_drains_exactly "t" "c" demoRecState
    ⟨fieldnames_csv false, [], true⟩ [("1.0", "10.0")] demoInfo rfl rfl rfl
  rw [h.1]
  rfl

/-- C4 counterexample: with the output folder missing, the blocking
record() entry point lets the OSError raised inside _initFile escape to
its caller instead of reporting it, so the claim fails as stated for
record(). -/
theorem record_missing_folder_raises :
    record false [] "t0" "c0" [] (initState false "logs") = Except.error () := rfl

/-- C4 amended: when the output folder is missing or unwritable at
session start, startRecording() reports the failure and does not start
the session - the recording flag stays false and no file handle or
writer is retained - and no exception escapes it; the blocking record()
also fails to start a session, but the OSError propagates to its
caller. -/
theorem missing_folder_start_behaviour (res : List StreamInfo)
    (now lc : String) (iters : List LoopEnv) (st : Logger)
    (h : st.recording = false) :
    (startRecording false res now lc st).recording = false ∧
    (startRecording false res now lc st).csvfile = st.csvfile ∧
    (startRecording false res now lc st).writerSet = st.writerSet ∧
    (startRecording false res now lc st).dataFile = st.dataFile ∧
    record false res now lc iters st = Except.error () := by
  have h1 : (updateStreams res now lc st).recording = false := by simp [h]
  have hi : initFile false now lc (updateStreams res now lc st) =
      Except.error () := by
    unfold initFile
    rw [if_neg (by simp [h])]
    rfl
  have hs : startRecording false res now lc st = updateStreams res now lc st := by
    unfold startRecording
    rw [if_neg (by simp [h])]
    dsimp only
    rw [hi]
  have hrec : record false res now lc iters st = Except.error () := by
    unfold record
    rw [if_neg (by simp [h])]
    dsimp only
    rw [hi]
  refine ⟨?_, ?_, ?_, ?_, hrec⟩ <;> rw [hs] <;> simp [h]

/-- Witness for C4 on the fresh state with one discovered stream. -/
theorem missing_folder_start_behaviour_witness :
    (startRecording false [demoInfo] "t" "c" (initState false "logs")).recording = false ∧
    (startRecording false [demoInfo] "t" "c" (initState false "logs")).csvfile = false ∧
    (startRecording false [demoInfo] "t" "c" (initState false "logs")).writerSet = false ∧
    (startRecording false [demoInfo] "t" "c" (initState false "logs")).dataFile = none ∧
    record false [demoInfo] "t" "c" [] (initState false "logs") = Except.error () :=
  missing_folder_start_behaviour [demoInfo] "t" "c" [] (initState false "logs") rfl

/-- C5: when the recording flag is already up, record() returns at once
with the state untouched and startRecording() changes nothing either -
no new file, the open session intact - so a second session can never
start beside an active one. -/
theorem start_while_recording_noop (folderOk : Bool) (res : List StreamInfo)
    (now lc : String) (iters : List LoopEnv) (st : Logger)
    (h : st.recording = true) :
    record folderOk res now lc iters st = Except.ok st ∧
    startRecording folderOk res now lc st = st := by
  constructor
  · unfold record
    rw [if_pos (by simp [h])]
  · unfold startRecording
    rw [if_pos (by simp [h])]

/-- Witness for C5 on the demo recording-session state. -/
theorem start_while_recording_noop_witness :
    record true [] "t" "c" [] demoRecState = Except.ok demoRecState ∧
    startRecording true [] "t" "c" demoRecState = demoRecState :=
  start_while_recording_noop true [] "t" "c" [] demoRecState rfl

/-! Scenario for the split-metadata guard: split mode on, one stream
discovered while idle, then a manual session starts, one sample arrives
and is drained. -/

/-- One loop() call while idle discovers the stream and creates its
inlet; no file exists yet. -/
def scenarioAfterDiscovery : Logger :=
  loop ⟨[demoInfo], "t0", "c0"⟩ (initState true "logs")

/-- The manual session then starts: _updateStreams (no new stream),
_initFile (files created, metadata loop runs while self._recording is
still False), then flag and writer are set. -/
def scenarioAfterStart : Logger :=
  startRecording true [demoInfo] "t1" "c1" scenarioAfterDiscovery

/-- A sample arrives on the stream's inlet and the next loop() drains it
into the data file. -/
def scenarioAfterDrain : Logger :=
  loop ⟨[demoInfo], "t2", "c2"⟩
    (deliver [("u1", [PullEvent.sample "3.14" "ts1"])] scenarioAfterStart)

/-- C3 (code bug): in split mode, a data row keyed by uid u1 is appended
during the session, yet the metadata file of that session holds no row
at all: the metadata writes _initFile attempts for already-known streams
are silenced because _writeCSVMeta tests self._recording, which is still
False while _initFile runs, against _initFile's own docstring promise
that metadata is initialized with the current stream list. -/
theorem split_metadata_row_missing :
    fileRows scenarioAfterDrain.dataFile =
      [dataRowSplit demoInfo "c2" "ts1" "3.14"] ∧
    (dataRowSplit demoInfo "c2" "ts1" "3.14").lookup "uid" = some "u1" ∧
    fileRows scenarioAfterDrain.metaFile = [] ∧
    scenarioAfterDrain.recording = true ∧
    scenarioAfterDrain.metaFilename = "logs/metadata_t1.csv" := by
  refine ⟨rfl, rfl, rfl, rfl, rfl⟩

/-- A second sample descriptor for the two-stream drain scenario. -/
def demoInfo2 : StreamInfo := ⟨"u2", "n2", "HR", "h2", "s2", "10.0"⟩

/-- A recording state whose first stream's inlet signals loss after one
buffered sample, while a second stream still has a sample queued. -/
def demoLostState : Logger :=
  { recording := true
    split := false
    folder := "logs"
    streams :=
      [("u1", ⟨demoInfo, [PullEvent.sample "1.0" "10.0", PullEvent.lost]⟩),
       ("u2", ⟨demoInfo2, [PullEvent.sample "2.0" "11.0"]⟩)]
    csvfile := true
    writerSet := true
    dataFile := some ⟨fieldnames_csv false, [], true⟩
    metaFile := none
    metaFilename := "" }

/-- C6: a LostError during a drain pass stops the pulls on that inlet for
the rest of the pass - the drain of a buffer of samples followed by a
lost signal yields exactly the samples before the loss and leaves the
lost signal queued - while every stream is drained from its own inlet
alone, so the streams after the lost one are processed normally; the
drain never removes a key, the lost stream included, and only a later
reconciliation pass whose resolver results lack its uid drops it. The
exception never reaches _writeCSV's caller: the model's drain is a total
function, as the source catches LostError at both pull sites. -/
theorem lost_stream_drain_isolated (now lc : String) (st : Logger)
    (df : DataFile) (vs : List (String × String)) (junk : List PullEvent)
    (res : List StreamInfo) (u : String)
    (h1 : st.recording = true) (h2 : st.writerSet = true)
    (h3 : st.dataFile = some df) (h4 : u ∉ res.map StreamInfo.uid) :
    drainInlet (vs.map (fun s => PullEvent.sample s.1 s.2) ++
        PullEvent.lost :: junk) = (vs, PullEvent.lost :: junk) ∧
    keysOf (writeCSV now lc st).streams = keysOf st.streams ∧
    (writeCSV now lc st).dataFile =
      some { df with rows := df.rows ++
        (st.streams.map (fun p =>
          streamRows st.split p.2.info now lc (drainInlet p.2.inlet).1)).flatten } ∧
    u ∉ keysOf ((updateStreams res now lc (writeCSV now lc st)).streams) := by
  have he := writeCSV_eq now lc st h1 h2
  refine ⟨drainInlet_until_lost junk vs, ?_, ?_, ?_⟩
  · rw [he]
    exact keysOf_map_second st.streams _
  · rw [he]
    simp only [h3, appendRows_some]
  · intro hmem
    exact h4 ((mem_keysOf_updateStreams res now lc (writeCSV now lc st) u).1 hmem)

/-- Witness for C6: the lost stream keeps only its pre-loss sample, both
streams stay known, and an empty resolver pass then drops uid u1. -/
theorem lost_stream_drain_isolated_witness :
    drainInlet ([(("1.0" : String), ("10.0" : String))].map
        (fun s => PullEvent.sample s.1 s.2) ++ PullEvent.lost :: []) =
      ([("1.0", "10.0")], PullEvent.lost :: []) ∧
    keysOf (writeCSV "t" "c" demoLostState).streams = keysOf demoLostState.streams ∧
    (writeCSV "t" "c" demoLostState).dataFile =
      some { (⟨fieldnames_csv false, [], true⟩ : DataFile) with
        rows := (⟨fieldnames_csv false, [], true⟩ : DataFile).rows ++
          (demoLostState.streams.map (fun p =>
            streamRows demoLostState.split p.2.info "t" "c"
              (drainInlet p.2.inlet).1)).flatten } ∧
    "u1" ∉ keysOf ((updateStreams [] "t" "c" (writeCSV "t" "c" demoLostState)).streams) :=
  lost_stream_drain_isolated "t" "c" demoLostState ⟨fieldnames_csv false, [], true⟩
    [("1.0", "10.0")] [] [] "u1" rfl rfl rfl (by decide)

/-- C7: stopRecording() settles the controller in the idle state - flag
down, manual handle cleared, and the file it held closed - while every
row already written stays in place; afterwards no loop() iteration, no
drain and no metadata write appends anything to either file until a new
session starts. -/
theorem stopRecording_quiesces (st : Logger) (envs : List LoopEnv)
    (i : StreamInfo) (now lc : String) :
    (stopRecording st).recording = false ∧
    (stopRecording st).csvfile = false ∧
    fileRows (stopRecording st).dataFile = fileRows st.dataFile ∧
    (stopRecording st).metaFile = st.metaFile ∧
    fileIsOpen (stopRecording st).dataFile =
      (if st.csvfile then false else fileIsOpen st.dataFile) ∧
    (runLoops envs (stopRecording st)).dataFile = (stopRecording st).dataFile ∧
    (runLoops envs (stopRecording st)).metaFile = (stopRecording st).metaFile ∧
    writeCSV now lc (stopRecording st) = stopRecording st ∧
    writeCSVMeta i now lc (stopRecording st) = stopRecording st := by
  have hidle : (stopRecording st).recording = false := stopRecording_recording st
  obtain ⟨_, b, c⟩ := runLoops_idle envs (stopRecording st) hidle
  exact ⟨stopRecording_recording st, stopRecording_csvfile st,
    stopRecording_rows st, stopRecording_metaFile st, stopRecording_isOpen st,
    b, c, writeCSV_of_not_recording now lc _ hidle,
    writeCSVMeta_of_not_recording i now lc _ hidle⟩

/-- C8: a session starts with _initFile creating a fresh timestamped data
file whose header is exactly the configured field set - the nine unsplit
fields or the four split data fields, with the metadata file carrying its
eight fields in split mode - and every row the writer methods can append
(full data row, split data row, metadata row, and any row a drain pass
produces) carries exactly those fields in that order. -/
theorem session_header_and_row_fields (st : Logger) (now lc ts v : String)
    (info : StreamInfo) (samples : List (String × String)) (r : Row)
    (h : st.recording = false)
    (hr : r ∈ streamRows st.split info now lc samples) :
    fieldnames_csv false =
      ["date_local", "timestamp_local", "timestamp_sample", "type", "name",
       "hostname", "source_id", "nominal_srate", "data"] ∧
    fieldnames_csv true = ["uid", "timestamp_local", "timestamp_sample", "data"] ∧
    fieldnames_csv_meta =
      ["uid", "date_local", "timestamp_local", "type", "name", "hostname",
       "source_id", "nominal_srate"] ∧
    (initFile true now lc st).map (fun p => p.1) =
      Except.ok (st.folder ++ "/data_" ++ now ++ ".csv") ∧
    (initFile true now lc st).map (fun p => p.2.dataFile) =
      Except.ok (some ⟨fieldnames_csv st.split, [], false⟩) ∧
    (initFile true now lc st).map (fun p => p.2.metaFile) =
      Except.ok (if st.split then some ⟨fieldnames_csv_meta, [], false⟩
        else st.metaFile) ∧
    (dataRowFull info now lc ts v).map Prod.fst = fieldnames_csv false ∧
    (dataRowSplit info lc ts v).map Prod.fst = fieldnames_csv true ∧
    (metaRow info now lc).map Prod.fst = fieldnames_csv_meta ∧
    r.map Prod.fst = fieldnames_csv st.split := by
  have hr10 : r.map Prod.fst = fieldnames_csv st.split := by
    rcases List.mem_map.1 hr with ⟨s, _, rfl⟩
    by_cases hs : st.split = true <;>
      simp [hs, dataRowSplit, dataRowFull, fieldnames_csv]
  have hini : initFile true now lc st =
      Except.ok (st.folder ++ "/data_" ++ now ++ ".csv",
        { st with
          dataFile := some ⟨fieldnames_csv st.split, [], false⟩
          metaFile := if st.split then some ⟨fieldnames_csv_meta, [], false⟩
            else st.metaFile
          metaFilename := if st.split then
              st.folder ++ "/metadata_" ++ now ++ ".csv"
            else st.metaFilename }) := by
    by_cases hs : st.split = true
    · unfold initFile
      rw [if_neg (by simp [h])]
      dsimp only
      rw [if_pos hs,
        foldl_writeCSVMeta_of_not_recording now lc _ _ (by simp [h]), hs]
      simp
    · unfold initFile
      rw [if_neg (by simp [h])]
      dsimp only
      rw [if_neg hs]
      simp only [Bool.not_eq_true] at hs
      rw [hs]
      simp
  refine ⟨rfl, rfl, rfl, ?_, ?_, ?_, rfl, rfl, rfl, hr10⟩ <;> rw [hini] <;> rfl

/-- Witness for C8: the fresh unsplit state yields a data file bearing
exactly the nine-field header and no rows. -/
theorem session_header_and_row_fields_witness :
    (initFile true "t" "c" (initState false "logs")).map (fun p => p.2.dataFile) =
      Except.ok (some ⟨fieldnames_csv false, [], false⟩) := by
  have hw := session_header_and_row_fields (initState false "logs") "t" "c"
    "ts" "v" demoInfo [("v", "ts")] (dataRowFull demoInfo "t" "c" "ts" "v")
    rfl (by simp [streamRows, initState])
  exact hw.2.2.2.2.1

/-- C9: a loop() call while the flag is down is exactly the
reconciliation step - inlets are created and deleted so that the key set
matches the resolver uids - and nothing is appended to the data file nor,
the split-mode guard being recording-aware, to the metadata file. -/
theorem loop_idle_reconciles_writes_nothing (e : LoopEnv) (st : Logger)
    (u : String) (h : st.recording = false) :
    loop e st = updateStreams e.res e.now e.lc st ∧
    (loop e st).dataFile = st.dataFile ∧
    (loop e st).metaFile = st.metaFile ∧
    (u ∈ keysOf (loop e st).streams ↔ u ∈ e.res.map StreamInfo.uid) := by
  have hl := loop_of_not_recording e st h
  refine ⟨hl, ?_, ?_, ?_⟩
  · rw [hl, updateStreams_dataFile]
  · rw [hl, updateStreams_metaFile_of_not_recording _ _ _ _ h]
  · rw [hl]
    exact mem_keysOf_updateStreams _ _ _ _ _

/-- Witness for C9 in split mode with a newly discovered stream: no file
gains a row even though an inlet is created. -/
theorem loop_idle_reconciles_writes_nothing_witness :
    loop ⟨[demoInfo], "t", "c"⟩ (initState true "logs") =
      updateStreams [demoInfo] "t" "c" (initState true "logs") ∧
    (loop ⟨[demoInfo], "t", "c"⟩ (initState true "logs")).dataFile =
      (initState true "logs").dataFile ∧
    (loop ⟨[demoInfo], "t", "c"⟩ (initState true "logs")).metaFile =
      (initState true "logs").metaFile ∧
    ("u1" ∈ keysOf (loop ⟨[demoInfo], "t", "c"⟩ (initState true "logs")).streams ↔
      "u1" ∈ [demoInfo].map StreamInfo.uid) :=
  loop_idle_reconciles_writes_nothing ⟨[demoInfo], "t", "c"⟩
    (initState true "logs") "u1" rfl

/-- C10: stopRecording() is idempotent - a second call right after the
first leaves exactly the state the first left, from any starting state -
and on an idle state (flag down, no manual handle retained) it changes
nothing at all; it is a total function, so it never raises. -/
theorem stopRecording_idempotent_idle_noop (st1 st2 : Logger)
    (h1 : st2.recording = false) (h2 : st2.csvfile = false) :
    stopRecording (stopRecording st1) = stopRecording st1 ∧
    stopRecording st2 = st2 := by
  constructor
  · by_cases hc : st1.csvfile = true <;>
      simp [stopRecording, hc]
  · obtain ⟨r, sp, fo, ss, cf, ws, dfl, mf, mfn⟩ := st2
    simp only at h1 h2
    subst h1
    subst h2
    simp [stopRecording]

/-- Witness for C10: stopping the demo session twice equals stopping it
once, and stopping the fresh idle state is the identity. -/
theorem stopRecording_idempotent_idle_noop_witness :
    stopRecording (stopRecording demoRecState) = stopRecording demoRecState ∧
    stopRecording (initState false "logs") = initState false "logs" :=
  stopRecording_idempotent_idle_noop demoRecState (initState false "logs") rfl rfl

end LSL2Logs
